import Mathlib

/-!
Verification of the `simd-array` elementwise vector engine
(`src/simd-array/src/vector/avx.rs`).

Modelling conventions (shallow embedding):

* A scalar floating-point value is represented by its bit pattern, a `Nat`
  below `2 ^ w` where `w` is the scalar width in bits (32 for `f32`,
  64 for `f64`).
* A 256-bit vector register (`__m256` / `__m256d`) is represented by the
  list of its lane bit patterns (8 lanes of 32 bits, or 4 lanes of
  64 bits), in order.
* The AVX intrinsics used by the source are given their architectural
  semantics: bitwise intrinsics act lane-wise on the bit patterns,
  `_mm256_cmp_ps/pd` with `_CMP_EQ_OQ`/`_CMP_GT_OQ`/`_CMP_LT_OQ` produce
  all-ones / all-zeros lane masks from the IEEE-754 ordered comparison,
  `_mm256_add_ps/pd` and `_mm256_mul_ps/pd` perform IEEE-754 arithmetic
  with round-to-nearest-even, and `_mm256_cvtps_epi32` converts with
  round-to-nearest-even, yielding the integer-indefinite value
  `-2 ^ 31` on NaN or out-of-range input.
* The exact real value of a finite float is represented as a dyadic pair
  `(M, E) : ℤ × ℤ` standing for `M * 2 ^ E` (no rational numbers are
  needed; comparisons shift both sides to a common exponent).
-/

/-- An IEEE-754 binary interchange format: number of exponent bits and
number of (stored) mantissa bits.  `f32 = ⟨8, 23⟩`, `f64 = ⟨11, 52⟩`. -/
structure FloatFmt where
  exBits : Nat
  manBits : Nat

/-- Total width in bits of the format (sign + exponent + mantissa). -/
def FloatFmt.width (fmt : FloatFmt) : Nat := fmt.exBits + fmt.manBits + 1

/-- Exponent bias of the format (`127` for `f32`, `1023` for `f64`). -/
def FloatFmt.bias (fmt : FloatFmt) : Nat := 2 ^ (fmt.exBits - 1) - 1

/-- The `f32` format. -/
def f32fmt : FloatFmt := ⟨8, 23⟩

/-- The `f64` format. -/
def f64fmt : FloatFmt := ⟨11, 52⟩

/-- Sign field of a bit pattern (0 or 1). -/
def sgnF (fmt : FloatFmt) (b : Nat) : Nat := b / 2 ^ (fmt.exBits + fmt.manBits) % 2

/-- Biased exponent field of a bit pattern. -/
def exF (fmt : FloatFmt) (b : Nat) : Nat := b / 2 ^ fmt.manBits % 2 ^ fmt.exBits

/-- Stored mantissa field of a bit pattern. -/
def manF (fmt : FloatFmt) (b : Nat) : Nat := b % 2 ^ fmt.manBits

/-- `b` encodes a NaN: exponent field all ones, nonzero mantissa. -/
def isNaNb (fmt : FloatFmt) (b : Nat) : Bool :=
  (exF fmt b == 2 ^ fmt.exBits - 1) && (manF fmt b != 0)

/-- `b` encodes an infinity: exponent field all ones, zero mantissa. -/
def isInfb (fmt : FloatFmt) (b : Nat) : Bool :=
  (exF fmt b == 2 ^ fmt.exBits - 1) && (manF fmt b == 0)

/-- `b` encodes a (signed) zero. -/
def isZerob (fmt : FloatFmt) (b : Nat) : Bool :=
  (exF fmt b == 0) && (manF fmt b == 0)

/-- Classification of a float bit pattern: NaN, one of the two infinities,
or a finite value `M * 2 ^ E` given by a signed integral mantissa and an
exponent. -/
inductive FC where
  | nan : FC
  | negInf : FC
  | posInf : FC
  | fin (M : ℤ) (E : ℤ) : FC
deriving DecidableEq

/-- Decode a bit pattern of format `fmt`.  Finite values (normal,
subnormal and zero) become `FC.fin M E` with exact value `M * 2 ^ E`. -/
def fclassify (fmt : FloatFmt) (b : Nat) : FC :=
  if exF fmt b = 2 ^ fmt.exBits - 1 then
    if manF fmt b = 0 then (if sgnF fmt b = 1 then FC.negInf else FC.posInf)
    else FC.nan
  else
    let sig : ℤ := if exF fmt b = 0 then (manF fmt b : ℤ) else (2 ^ fmt.manBits + manF fmt b : ℤ)
    let M : ℤ := if sgnF fmt b = 1 then -sig else sig
    let E : ℤ := (if exF fmt b = 0 then 1 else (exF fmt b : ℤ)) - fmt.bias - fmt.manBits
    FC.fin M E

/-- Equality of two dyadic values `M1 * 2 ^ E1 = M2 * 2 ^ E2`, decided by
shifting both to the smaller exponent. -/
def dyEqB (M1 E1 M2 E2 : ℤ) : Bool :=
  M1 * 2 ^ (E1 - min E1 E2).toNat == M2 * 2 ^ (E2 - min E1 E2).toNat

/-- Strict order of two dyadic values `M1 * 2 ^ E1 < M2 * 2 ^ E2`. -/
def dyLtB (M1 E1 M2 E2 : ℤ) : Bool :=
  M1 * 2 ^ (E1 - min E1 E2).toNat < M2 * 2 ^ (E2 - min E1 E2).toNat

/-- IEEE-754 equality on classified values; false whenever either side is
NaN.  Both zeroes classify to `M = 0`, so `+0 = -0` holds. -/
def fcEqB : FC → FC → Bool
  | FC.negInf, FC.negInf => true
  | FC.posInf, FC.posInf => true
  | FC.fin M1 E1, FC.fin M2 E2 => dyEqB M1 E1 M2 E2
  | _, _ => false

/-- IEEE-754 strict less-than on classified values; false whenever either
side is NaN. -/
def fcLtB : FC → FC → Bool
  | FC.nan, _ => false
  | _, FC.nan => false
  | FC.negInf, FC.negInf => false
  | FC.negInf, _ => true
  | FC.fin _ _, FC.negInf => false
  | FC.fin M1 E1, FC.fin M2 E2 => dyLtB M1 E1 M2 E2
  | FC.fin _ _, FC.posInf => true
  | FC.posInf, _ => false

/-- IEEE-754 strict greater-than: the swapped less-than. -/
def fcGtB (x y : FC) : Bool := fcLtB y x

/-- Assemble a bit pattern from sign, biased-exponent field and mantissa
field. -/
def mkPat (fmt : FloatFmt) (s ef mf : Nat) : Nat :=
  s * 2 ^ (fmt.exBits + fmt.manBits) + ef * 2 ^ fmt.manBits + mf

/-- The infinity of sign `s`. -/
def infPat (fmt : FloatFmt) (s : Nat) : Nat := mkPat fmt s (2 ^ fmt.exBits - 1) 0

/-- The x86 "real indefinite" QNaN (sign set, quiet bit set, rest zero),
produced by invalid operations such as `∞ - ∞` and `∞ * 0`. -/
def realIndef (fmt : FloatFmt) : Nat :=
  mkPat fmt 1 (2 ^ fmt.exBits - 1) (2 ^ (fmt.manBits - 1))

/-- Quiet a NaN bit pattern by setting the top mantissa bit. -/
def quietNaN (fmt : FloatFmt) (b : Nat) : Nat := b ||| 2 ^ (fmt.manBits - 1)

/-- Round `A / 2 ^ k` to the nearest integer, ties to even. -/
def rneNat (A k : Nat) : Nat :=
  let d := 2 ^ k
  let q := A / d
  let r := A % d
  if 2 * r < d then q
  else if d < 2 * r then q + 1
  else if q % 2 = 0 then q else q + 1

/-- Round `M / 2 ^ k` to the nearest integer, ties to even (round-to-nearest
is symmetric about zero). -/
def rneInt (M : ℤ) (k : Nat) : ℤ :=
  if M < 0 then -(rneNat M.natAbs k : ℤ) else (rneNat M.natAbs k : ℤ)

/-- Truncate `M / d` toward zero (the rounding used by Rust `as` casts). -/
def tdivTrunc (M : ℤ) (d : Nat) : Int :=
  if M < 0 then -((M.natAbs / d : Nat) : ℤ) else ((M.natAbs / d : Nat) : ℤ)

/-- Fuelled floor-log2 (the fuel only drives termination; with fuel at
least `n` the result is `⌊log2 n⌋`). -/
def natLog2F : Nat → Nat → Nat
  | 0, _ => 0
  | fuel + 1, n => if n ≤ 1 then 0 else natLog2F fuel (n / 2) + 1

/-- Floor of the base-2 logarithm of `n` (0 at 0). -/
def natLog2 (n : Nat) : Nat := natLog2F n n

/-- Round the nonzero dyadic value `M * 2 ^ E` to the nearest representable
value of format `fmt` (round-to-nearest-even, overflow to infinity,
gradual underflow to subnormals and signed zero).  This is the rounding
performed by the AVX arithmetic instructions in the default MXCSR mode. -/
def roundToFmt (fmt : FloatFmt) (M E : ℤ) : Nat :=
  if M = 0 then 0
  else
    let s : Nat := if M < 0 then 1 else 0
    let A : Nat := M.natAbs
    let e : ℤ := (natLog2 A : ℤ) + E
    let emin : ℤ := 1 - fmt.bias
    let eEff : ℤ := max e emin
    let k : ℤ := eEff - fmt.manBits - E
    let sig : Nat := if 0 ≤ k then rneNat A k.toNat else A * 2 ^ (-k).toNat
    let sig2 : Nat := if 2 ^ (fmt.manBits + 1) ≤ sig then sig / 2 else sig
    let e2 : ℤ := if 2 ^ (fmt.manBits + 1) ≤ sig then eEff + 1 else eEff
    if (fmt.bias : ℤ) < e2 then infPat fmt s
    else if sig2 < 2 ^ fmt.manBits then mkPat fmt s 0 sig2
    else mkPat fmt s (e2 + fmt.bias).toNat (sig2 - 2 ^ fmt.manBits)

/-- Scalar semantics of `_mm256_add_ps` / `_mm256_add_pd` on one lane:
IEEE-754 addition with round-to-nearest-even; NaN operands propagate
quieted (first operand preferred), `∞ + (-∞)` yields the real-indefinite
QNaN, and an exactly zero sum of nonzero operands is `+0` (it is `-0`
only when both addends are negative). -/
def addF (fmt : FloatFmt) (a b : Nat) : Nat :=
  if isNaNb fmt a then quietNaN fmt a
  else if isNaNb fmt b then quietNaN fmt b
  else if isInfb fmt a then
    if isInfb fmt b ∧ sgnF fmt a ≠ sgnF fmt b then realIndef fmt else infPat fmt (sgnF fmt a)
  else if isInfb fmt b then infPat fmt (sgnF fmt b)
  else
    match fclassify fmt a, fclassify fmt b with
    | FC.fin M1 E1, FC.fin M2 E2 =>
        let Em := min E1 E2
        let S := M1 * 2 ^ (E1 - Em).toNat + M2 * 2 ^ (E2 - Em).toNat
        if S = 0 then
          if sgnF fmt a = 1 ∧ sgnF fmt b = 1 then mkPat fmt 1 0 0 else 0
        else roundToFmt fmt S Em
    | _, _ => realIndef fmt

/-- Scalar semantics of `_mm256_mul_ps` / `_mm256_mul_pd` on one lane:
IEEE-754 multiplication with round-to-nearest-even; NaN operands
propagate quieted, `∞ * 0` yields the real-indefinite QNaN, and the sign
of a zero or infinite product is the XOR of the operand signs. -/
def mulF (fmt : FloatFmt) (a b : Nat) : Nat :=
  if isNaNb fmt a then quietNaN fmt a
  else if isNaNb fmt b then quietNaN fmt b
  else
    let s := (sgnF fmt a + sgnF fmt b) % 2
    if isInfb fmt a then
      if isZerob fmt b then realIndef fmt else infPat fmt s
    else if isInfb fmt b then
      if isZerob fmt a then realIndef fmt else infPat fmt s
    else
      match fclassify fmt a, fclassify fmt b with
      | FC.fin M1 E1, FC.fin M2 E2 =>
          if M1 * M2 = 0 then mkPat fmt s 0 0 else roundToFmt fmt (M1 * M2) (E1 + E2)
      | _, _ => realIndef fmt

/-- Scalar semantics of `_mm256_cmp_ps/pd` with `_CMP_EQ_OQ` on one lane:
all-ones mask when the ordered comparison holds, all-zeros otherwise
(in particular all-zeros when either operand is NaN). -/
def cmpEqOq (fmt : FloatFmt) (a b : Nat) : Nat :=
  if fcEqB (fclassify fmt a) (fclassify fmt b) then 2 ^ fmt.width - 1 else 0

/-- Scalar semantics of `_mm256_cmp_ps/pd` with `_CMP_GT_OQ` on one lane. -/
def cmpGtOq (fmt : FloatFmt) (a b : Nat) : Nat :=
  if fcGtB (fclassify fmt a) (fclassify fmt b) then 2 ^ fmt.width - 1 else 0

/-- Scalar semantics of `_mm256_cmp_ps/pd` with `_CMP_LT_OQ` on one lane. -/
def cmpLtOq (fmt : FloatFmt) (a b : Nat) : Nat :=
  if fcLtB (fclassify fmt a) (fclassify fmt b) then 2 ^ fmt.width - 1 else 0

/-- Scalar semantics of `_mm256_cvtps_epi32` on one lane: convert to `i32`
with round-to-nearest-even; NaN, infinities and out-of-range values
yield the integer-indefinite value `-2 ^ 31`. -/
def cvtRneToI32 (b : Nat) : ℤ :=
  match fclassify f32fmt b with
  | FC.fin M E =>
      let r : ℤ := if 0 ≤ E then M * 2 ^ E.toNat else rneInt M (-E).toNat
      if r < -(2 ^ 31) ∨ 2 ^ 31 - 1 < r then -(2 ^ 31) else r
  | _ => -(2 ^ 31)

/-- Semantics of the Rust cast `v as i64` for `v : f64` (used by
`AVXVector64::to_int`): truncate toward zero, saturate to
`i64::MIN` / `i64::MAX`, NaN casts to 0. -/
def castF64toI64 (b : Nat) : ℤ :=
  match fclassify f64fmt b with
  | FC.nan => 0
  | FC.posInf => 2 ^ 63 - 1
  | FC.negInf => -(2 ^ 63)
  | FC.fin M E =>
      let t : ℤ := if 0 ≤ E then M * 2 ^ E.toNat else tdivTrunc M (2 ^ (-E).toNat)
      if t < -(2 ^ 63) then -(2 ^ 63)
      else if 2 ^ 63 - 1 < t then 2 ^ 63 - 1
      else t

/-! ## Register-level model of the AVX backends

A 256-bit register is the list of its lane bit patterns.  The bitwise
intrinsics act lane-wise. -/

/-- `_mm256_set1_*`: broadcast one value to all `n` lanes. -/
def set1 (n x : Nat) : List Nat := List.replicate n x

/-- Lane-wise `_mm256_and_ps/pd`. -/
def landL (a b : List Nat) : List Nat := List.zipWith (· &&& ·) a b

/-- Lane-wise `_mm256_or_ps/pd`. -/
def lorL (a b : List Nat) : List Nat := List.zipWith (· ||| ·) a b

/-- Lane-wise `_mm256_xor_ps/pd`. -/
def lxorL (a b : List Nat) : List Nat := List.zipWith (· ^^^ ·) a b

/-- Lane-wise `_mm256_andnot_ps/pd`: `(NOT a) AND b`, the complement taken
within the `w`-bit lane. -/
def landnotL (w : Nat) (a b : List Nat) : List Nat :=
  List.zipWith (fun x y => ((2 ^ w - 1) ^^^ x) &&& y) a b

namespace AVXVector32

/-- Lane count of `AVXVector32`: `size_of::<__m256>() / size_of::<f32>()`. -/
def laneCount : Nat := 256 / 32

/-- `AVXVector32::splat`: `_mm256_set1_ps(v)`. -/
def splat (v : Nat) : List Nat := set1 laneCount v

/-- `AVXVector32::abs`: AND with the broadcast mask `0x7fffffff`
(reinterpreted from `_mm256_set1_epi32`). -/
def abs (a : List Nat) : List Nat := landL a (set1 laneCount 0x7fffffff)

/-- `AVXVector32::neg`: XOR with the broadcast bit pattern of `-0.0f32`
(`0x80000000`). -/
def neg (a : List Nat) : List Nat := lxorL a (set1 laneCount 0x80000000)

/-- `AVXVector32::bitwise_select`: `(a AND b) OR ((NOT a) AND c)`. -/
def bitwise_select (a b c : List Nat) : List Nat :=
  lorL (landL a b) (landnotL 32 a c)

/-- `AVXVector32::copy_sign`: bitwise select with the sign-bit mask
`splat(-0.0)`, taking the sign bit from `sign_src` and all other bits
from `dest`. -/
def copy_sign (sign_src dest : List Nat) : List Nat :=
  bitwise_select (splat 0x80000000) sign_src dest

/-- `AVXVector32::add`: `_mm256_add_ps`. -/
def add (a b : List Nat) : List Nat := List.zipWith (addF f32fmt) a b

/-- `AVXVector32::mul`: `_mm256_mul_ps`. -/
def mul (a b : List Nat) : List Nat := List.zipWith (mulF f32fmt) a b

/-- `AVXVector32::fma`: no fused instruction on AVX; the source computes
`_mm256_add_ps(_mm256_mul_ps(a, b), c)`. -/
def fma (a b c : List Nat) : List Nat := add (mul a b) c

/-- `AVXVector32::eq`: `_mm256_cmp_ps::<_CMP_EQ_OQ>`. -/
def eq (a b : List Nat) : List Nat := List.zipWith (cmpEqOq f32fmt) a b

/-- `AVXVector32::gt`: `_mm256_cmp_ps::<_CMP_GT_OQ>`. -/
def gt (a b : List Nat) : List Nat := List.zipWith (cmpGtOq f32fmt) a b

/-- `AVXVector32::lt`: `_mm256_cmp_ps::<_CMP_LT_OQ>`. -/
def lt (a b : List Nat) : List Nat := List.zipWith (cmpLtOq f32fmt) a b

/-- `AVXVector32::to_int`: `_mm256_cvtps_epi32` (native conversion,
round-to-nearest-even, indefinite on overflow/NaN), per lane. -/
def to_int (v : List Nat) : List ℤ := v.map cvtRneToI32

end AVXVector32

namespace AVXVector64

/-- Lane count of `AVXVector64`: `size_of::<__m256d>() / size_of::<f64>()`. -/
def laneCount : Nat := 256 / 64

/-- `AVXVector64::splat`: `_mm256_set1_pd(v)`. -/
def splat (v : Nat) : List Nat := set1 laneCount v

/-- `AVXVector64::abs`: AND with the broadcast mask `0x7fffffffffffffff`. -/
def abs (a : List Nat) : List Nat := landL a (set1 laneCount 0x7fffffffffffffff)

/-- `AVXVector64::neg`: XOR with the broadcast bit pattern of `-0.0f64`
(`0x8000000000000000`). -/
def neg (a : List Nat) : List Nat := lxorL a (set1 laneCount 0x8000000000000000)

/-- `AVXVector64::bitwise_select`: `(a AND b) OR ((NOT a) AND c)`. -/
def bitwise_select (a b c : List Nat) : List Nat :=
  lorL (landL a b) (landnotL 64 a c)

/-- `AVXVector64::copy_sign`: bitwise select with the sign-bit mask
`splat(-0.0)`. -/
def copy_sign (sign_src dest : List Nat) : List Nat :=
  bitwise_select (splat 0x8000000000000000) sign_src dest

/-- `AVXVector64::add`: `_mm256_add_pd`. -/
def add (a b : List Nat) : List Nat := List.zipWith (addF f64fmt) a b

/-- `AVXVector64::mul`: `_mm256_mul_pd`. -/
def mul (a b : List Nat) : List Nat := List.zipWith (mulF f64fmt) a b

/-- `AVXVector64::fma`: the source computes
`_mm256_add_pd(_mm256_mul_pd(a, b), c)`. -/
def fma (a b c : List Nat) : List Nat := add (mul a b) c

/-- `AVXVector64::eq`: `_mm256_cmp_pd::<_CMP_EQ_OQ>`. -/
def eq (a b : List Nat) : List Nat := List.zipWith (cmpEqOq f64fmt) a b

/-- `AVXVector64::gt`: `_mm256_cmp_pd::<_CMP_GT_OQ>`. -/
def gt (a b : List Nat) : List Nat := List.zipWith (cmpGtOq f64fmt) a b

/-- `AVXVector64::lt`: `_mm256_cmp_pd::<_CMP_LT_OQ>`. -/
def lt (a b : List Nat) : List Nat := List.zipWith (cmpLtOq f64fmt) a b

/-- `AVXVector64::to_int`: no pre-AVX-512 instruction exists, so the
source stores the lanes to an aligned scalar array, casts each element
with `v as i64`, and reloads; per lane this is the Rust cast. -/
def to_int (v : List Nat) : List ℤ := v.map castF64toI64

end AVXVector64

/-- The spec's composed fall-back fused-multiply-add contract
(`fma(a,b,c) = add(mul(a,b),c)`), stated for the 32-bit backend, for
comparison with the source's `fma`. -/
def fmaSpec32 (a b c : List Nat) : List Nat := AVXVector32.add (AVXVector32.mul a b) c

/-- The spec's composed fall-back fused-multiply-add contract for the
64-bit backend. -/
def fmaSpec64 (a b c : List Nat) : List Nat := AVXVector64.add (AVXVector64.mul a b) c

/-! ## The backend fallback chain -/

/-- The backends of the repository.  The two AVX backends are declared in
`src/simd-array/src/vector/avx.rs`; the two scalar backends are their
declared `Lower` associated types. -/
inductive Backend where
  | avxVector32 : Backend
  | avxVector64 : Backend
  | scalarVector32 : Backend
  | scalarVector64 : Backend
deriving DecidableEq

/-- Lane width of each backend.  For the AVX backends this is
`size_of::<Float>() / size_of::<FloatScalar>()` from the source (8 and 4).
Modelled from the spec: the scalar backends (module `vector/scalar.rs`,
not part of the sources under verification) have lane width 1. -/
def Backend.laneWidth : Backend → Nat
  | Backend.avxVector32 => 256 / 32
  | Backend.avxVector64 => 256 / 64
  | Backend.scalarVector32 => 1
  | Backend.scalarVector64 => 1

/-- Declared fallback (`type Lower = ...`) of each backend.  The AVX
declarations are from the source (`Lower = ScalarVector32` and
`Lower = ScalarVector64`).  Modelled from the spec: the scalar backends
(width 1) are the terminal tier and have no fallback. -/
def Backend.lower : Backend → Option Backend
  | Backend.avxVector32 => some Backend.scalarVector32
  | Backend.avxVector64 => some Backend.scalarVector64
  | Backend.scalarVector32 => none
  | Backend.scalarVector64 => none

/-! ## The elementwise driver -/

/-- Modelled from the spec: `apply_elementwise_generic` (the Elementwise
Driver of §4.2, module `vector/mod.rs`, not part of the sources under
verification).  It consumes full `W`-element chunks left-to-right with
the backend's lane function and hands the trailing remainder (fewer than
`W` elements) to the fallback backend's own driver. -/
def apply_elementwise_generic {α : Type} (W : Nat) (f : List α → List α)
    (fallback : List α → List α) (a : List α) : List α :=
  if _h : 0 < W ∧ W ≤ a.length then
    f (a.take W) ++ apply_elementwise_generic W f fallback (a.drop W)
  else fallback a
termination_by a.length
decreasing_by simp only [List.length_drop]; omega

/-- Modelled from the spec: the Scalar Backend's driver instance (§4.2
step 4) — lane width 1, each remaining scalar transformed directly by the
scalar-equivalent function, no further fallback (the remainder of a
width-1 chunking is empty). -/
def scalar_apply_elementwise {α : Type} (g : α → α) (a : List α) : List α :=
  apply_elementwise_generic 1 (fun l => l.map g) id a

/-- `AVXVector32::apply_elementwise`: the generic driver instantiated at
this backend (lane width 8), with the remainder recursing to the declared
fallback `ScalarVector32`. -/
def AVXVector32.apply_elementwise (f : List Nat → List Nat) (fRest : Nat → Nat)
    (a : List Nat) : List Nat :=
  apply_elementwise_generic AVXVector32.laneCount f (scalar_apply_elementwise fRest) a

/-- `AVXVector64::apply_elementwise`: the generic driver instantiated at
this backend (lane width 4), with the remainder recursing to the declared
fallback `ScalarVector64`. -/
def AVXVector64.apply_elementwise (f : List Nat → List Nat) (fRest : Nat → Nat)
    (a : List Nat) : List Nat :=
  apply_elementwise_generic AVXVector64.laneCount f (scalar_apply_elementwise fRest) a

/-! ## Helper lemmas -/

theorem getElem!_zipWith_nat (f : Nat → Nat → Nat) (a b : List Nat) (i : Nat)
    (ha : i < a.length) (hb : i < b.length) :
    (List.zipWith f a b)[i]! = f a[i]! b[i]! := by
  rw [getElem!_pos a i ha, getElem!_pos b i hb,
    getElem!_pos (List.zipWith f a b) i (by simp [List.length_zipWith]; omega)]
  exact List.getElem_zipWith (i := i)

theorem getElem!_replicate_nat (x n i : Nat) (h : i < n) :
    (List.replicate n x)[i]! = x := by
  rw [getElem!_pos _ i (by simpa using h)]
  exact List.getElem_replicate x _

theorem testBit_absMask32 : ∀ j, j < 32 → (0x7fffffff : Nat).testBit j = decide (j ≠ 31) := by
  decide

theorem testBit_signMask32 : ∀ j, j < 32 → (0x80000000 : Nat).testBit j = decide (j = 31) := by
  decide

theorem testBit_absMask64 : ∀ j, j < 64 →
    (0x7fffffffffffffff : Nat).testBit j = decide (j ≠ 63) := by
  decide

theorem testBit_signMask64 : ∀ j, j < 64 →
    (0x8000000000000000 : Nat).testBit j = decide (j = 63) := by
  decide

/-- C6: on both backends, `abs` clears the sign bit of every lane and
leaves all other lane bits unchanged (bitwise AND with the
all-ones-except-sign-bit mask of the scalar width). -/
theorem abs_clears_exactly_sign_bit (a : List Nat) (i j : Nat) :
    (a.length = 8 → i < 8 → j < 32 →
      ((AVXVector32.abs a)[i]!).testBit j =
        if j = 31 then false else (a[i]!).testBit j) ∧
    (a.length = 4 → i < 4 → j < 64 →
      ((AVXVector64.abs a)[i]!).testBit j =
        if j = 63 then false else (a[i]!).testBit j) := by
  have h8 : AVXVector32.laneCount = 8 := rfl
  have h4 : AVXVector64.laneCount = 4 := rfl
  constructor
  · intro ha hi hj
    rw [AVXVector32.abs, landL, set1, h8,
      getElem!_zipWith_nat _ _ _ i (by omega) (by simpa using hi),
      getElem!_replicate_nat _ _ _ hi, Nat.testBit_and, testBit_absMask32 j hj]
    by_cases h : j = 31 <;> simp [h]
  · intro ha hi hj
    rw [AVXVector64.abs, landL, set1, h4,
      getElem!_zipWith_nat _ _ _ i (by omega) (by simpa using hi),
      getElem!_replicate_nat _ _ _ hi, Nat.testBit_and, testBit_absMask64 j hj]
    by_cases h : j = 63 <;> simp [h]

/-- C6 witness: concrete lanes (`abs(-5.0f32)` has the bits of `5.0f32`,
checked at the sign bit and a mantissa bit). -/
theorem abs_clears_exactly_sign_bit_witness :
    ((AVXVector32.abs (List.replicate 8 0xC0A00000))[0]!).testBit 31 = false ∧
    ((AVXVector64.abs (List.replicate 4 0xC014000000000000))[0]!).testBit 63 = false := by
  constructor
  · exact ((abs_clears_exactly_sign_bit (List.replicate 8 0xC0A00000) 0 31).1
      (by decide) (by decide) (by decide)).trans (by decide)
  · exact ((abs_clears_exactly_sign_bit (List.replicate 4 0xC014000000000000) 0 63).2
      (by decide) (by decide) (by decide)).trans (by decide)

theorem zipWith_replicate_right_nat (f : Nat → Nat → Nat) (x : Nat) :
    ∀ (a : List Nat) (n : Nat), a.length = n →
      List.zipWith f a (List.replicate n x) = a.map (fun y => f y x) := by
  intro a
  induction a with
  | nil => intro n h; simp
  | cons y ys ih =>
    intro n h
    cases n with
    | zero => simp at h
    | succ m =>
      simp only [List.replicate_succ, List.zipWith_cons_cons, List.map_cons]
      rw [ih m (by simpa using h)]

theorem neg_scalar_involutive (m x : Nat) : (x ^^^ m) ^^^ m = x := by
  rw [Nat.xor_assoc, Nat.xor_self, Nat.xor_zero]

/-- C7: on both backends, `neg` flips exactly the sign bit of every lane
(bitwise XOR with the negative-zero bit pattern), leaving all other lane
bits unchanged, and is a bit-exact involution. -/
theorem neg_flips_exactly_sign_bit (a : List Nat) (i j : Nat) :
    (a.length = 8 → i < 8 → j < 32 →
      ((AVXVector32.neg a)[i]!).testBit j =
        if j = 31 then !(a[i]!).testBit j else (a[i]!).testBit j) ∧
    (a.length = 8 → AVXVector32.neg (AVXVector32.neg a) = a) ∧
    (a.length = 4 → i < 4 → j < 64 →
      ((AVXVector64.neg a)[i]!).testBit j =
        if j = 63 then !(a[i]!).testBit j else (a[i]!).testBit j) ∧
    (a.length = 4 → AVXVector64.neg (AVXVector64.neg a) = a) := by
  have h8 : AVXVector32.laneCount = 8 := rfl
  have h4 : AVXVector64.laneCount = 4 := rfl
  refine ⟨?_, ?_, ?_, ?_⟩
  · intro ha hi hj
    rw [AVXVector32.neg, lxorL, set1, h8,
      getElem!_zipWith_nat _ _ _ i (by omega) (by simpa using hi),
      getElem!_replicate_nat _ _ _ hi, Nat.testBit_xor, testBit_signMask32 j hj]
    by_cases h : j = 31 <;> simp [h]
  · intro ha
    rw [AVXVector32.neg, AVXVector32.neg, lxorL, lxorL, set1, h8,
      zipWith_replicate_right_nat _ _ a 8 ha,
      zipWith_replicate_right_nat _ _ _ 8 (by simpa using ha), List.map_map]
    simp [Function.comp_def, neg_scalar_involutive]
  · intro ha hi hj
    rw [AVXVector64.neg, lxorL, set1, h4,
      getElem!_zipWith_nat _ _ _ i (by omega) (by simpa using hi),
      getElem!_replicate_nat _ _ _ hi, Nat.testBit_xor, testBit_signMask64 j hj]
    by_cases h : j = 63 <;> simp [h]
  · intro ha
    rw [AVXVector64.neg, AVXVector64.neg, lxorL, lxorL, set1, h4,
      zipWith_replicate_right_nat _ _ a 4 ha,
      zipWith_replicate_right_nat _ _ _ 4 (by simpa using ha), List.map_map]
    simp [Function.comp_def, neg_scalar_involutive]

/-- C7 witness: `neg(neg(-5.0f32)) = -5.0f32` lane-wise, and the sign bit
of `neg(1.5f64)` is set. -/
theorem neg_flips_exactly_sign_bit_witness :
    AVXVector32.neg (AVXVector32.neg (List.replicate 8 0xC0A00000)) =
      List.replicate 8 0xC0A00000 ∧
    ((AVXVector64.neg (List.replicate 4 0x3FF8000000000000))[0]!).testBit 63 = true := by
  constructor
  · exact (neg_flips_exactly_sign_bit (List.replicate 8 0xC0A00000) 0 0).2.1 (by decide)
  · exact ((neg_flips_exactly_sign_bit (List.replicate 4 0x3FF8000000000000) 0 63).2.2.1
      (by decide) (by decide) (by decide)).trans (by decide)

/-- C5: on both backends, `copy_sign(signSrc, dest)` returns per lane the
value whose sign bit is that of `signSrc` and whose remaining (magnitude)
bits are those of `dest`. -/
theorem copy_sign_takes_sign_and_magnitude (s d : List Nat) (i j : Nat) :
    (s.length = 8 → d.length = 8 → i < 8 → j < 32 →
      ((AVXVector32.copy_sign s d)[i]!).testBit j =
        if j = 31 then (s[i]!).testBit 31 else (d[i]!).testBit j) ∧
    (s.length = 4 → d.length = 4 → i < 4 → j < 64 →
      ((AVXVector64.copy_sign s d)[i]!).testBit j =
        if j = 63 then (s[i]!).testBit 63 else (d[i]!).testBit j) := by
  have h8 : AVXVector32.laneCount = 8 := rfl
  have h4 : AVXVector64.laneCount = 4 := rfl
  constructor
  · intro hs hd hi hj
    rw [AVXVector32.copy_sign, AVXVector32.bitwise_select, AVXVector32.splat, lorL, landL,
      landnotL, set1, h8,
      getElem!_zipWith_nat _ _ _ i (by simp [List.length_zipWith]; omega)
        (by simp [List.length_zipWith]; omega),
      getElem!_zipWith_nat _ _ _ i (by simpa using hi) (by omega),
      getElem!_zipWith_nat _ _ _ i (by simpa using hi) (by omega),
      getElem!_replicate_nat _ _ _ hi,
      Nat.testBit_or, Nat.testBit_and, Nat.testBit_and, Nat.testBit_xor,
      testBit_signMask32 j hj, Nat.testBit_two_pow_sub_one]
    by_cases h : j = 31 <;> simp [h, hj]
  · intro hs hd hi hj
    rw [AVXVector64.copy_sign, AVXVector64.bitwise_select, AVXVector64.splat, lorL, landL,
      landnotL, set1, h4,
      getElem!_zipWith_nat _ _ _ i (by simp [List.length_zipWith]; omega)
        (by simp [List.length_zipWith]; omega),
      getElem!_zipWith_nat _ _ _ i (by simpa using hi) (by omega),
      getElem!_zipWith_nat _ _ _ i (by simpa using hi) (by omega),
      getElem!_replicate_nat _ _ _ hi,
      Nat.testBit_or, Nat.testBit_and, Nat.testBit_and, Nat.testBit_xor,
      testBit_signMask64 j hj, Nat.testBit_two_pow_sub_one]
    by_cases h : j = 63 <;> simp [h, hj]

/-- C5 witness: the spec's examples, bit-for-bit on lane 0:
`copy_sign(-5.0, 3.0) = -3.0` (f32) and `copy_sign(2.0, -7.5) = 7.5`
(f64); the bit patterns are `-5.0f32 = 0xC0A00000`, `3.0f32 = 0x40400000`,
`-3.0f32 = 0xC0400000`, `2.0f64 = 0x4000000000000000`,
`-7.5f64 = 0xC01E000000000000`, `7.5f64 = 0x401E000000000000`. -/
theorem copy_sign_takes_sign_and_magnitude_witness :
    ((AVXVector32.copy_sign (List.replicate 8 0xC0A00000)
        (List.replicate 8 0x40400000))[0]!).testBit 31 = true ∧
    (AVXVector32.copy_sign (List.replicate 8 0xC0A00000) (List.replicate 8 0x40400000) =
      List.replicate 8 0xC0400000) ∧
    ((AVXVector64.copy_sign (List.replicate 4 0x4000000000000000)
        (List.replicate 4 0xC01E000000000000))[0]!).testBit 63 = false ∧
    (AVXVector64.copy_sign (List.replicate 4 0x4000000000000000)
        (List.replicate 4 0xC01E000000000000) =
      List.replicate 4 0x401E000000000000) := by
  refine ⟨?_, by decide, ?_, by decide⟩
  · exact ((copy_sign_takes_sign_and_magnitude
      (List.replicate 8 0xC0A00000) (List.replicate 8 0x40400000) 0 31).1
      (by decide) (by decide) (by decide) (by decide)).trans (by decide)
  · exact ((copy_sign_takes_sign_and_magnitude
      (List.replicate 4 0x4000000000000000) (List.replicate 4 0xC01E000000000000) 0 63).2
      (by decide) (by decide) (by decide) (by decide)).trans (by decide)


theorem land_ones_of_lt (w x : Nat) (h : x < 2 ^ w) : x &&& (2 ^ w - 1) = x := by
  rw [Nat.and_pow_two_sub_one_eq_mod, Nat.mod_eq_of_lt h]

/-- C8: on both backends, `bitwise_select(mask, a, b)` computes, per bit of
every lane, `(mask AND a) OR ((NOT mask) AND b)`; with an all-ones mask it
returns `a`, and with an all-zeros mask it returns `b`. -/
theorem bitwise_select_per_bit (m x y : List Nat) (i j : Nat) :
    (i < 8 → j < 32 → m.length = 8 → x.length = 8 → y.length = 8 →
      ((AVXVector32.bitwise_select m x y)[i]!).testBit j =
        ((m[i]!).testBit j && (x[i]!).testBit j ||
          (!(m[i]!).testBit j && (y[i]!).testBit j))) ∧
    (x.length = 8 → y.length = 8 → (∀ v ∈ x, v < 2 ^ 32) →
      AVXVector32.bitwise_select (AVXVector32.splat (2 ^ 32 - 1)) x y = x) ∧
    (x.length = 8 → y.length = 8 → (∀ v ∈ y, v < 2 ^ 32) →
      AVXVector32.bitwise_select (AVXVector32.splat 0) x y = y) ∧
    (i < 4 → j < 64 → m.length = 4 → x.length = 4 → y.length = 4 →
      ((AVXVector64.bitwise_select m x y)[i]!).testBit j =
        ((m[i]!).testBit j && (x[i]!).testBit j ||
          (!(m[i]!).testBit j && (y[i]!).testBit j))) ∧
    (x.length = 4 → y.length = 4 → (∀ v ∈ x, v < 2 ^ 64) →
      AVXVector64.bitwise_select (AVXVector64.splat (2 ^ 64 - 1)) x y = x) ∧
    (x.length = 4 → y.length = 4 → (∀ v ∈ y, v < 2 ^ 64) →
      AVXVector64.bitwise_select (AVXVector64.splat 0) x y = y) := by
  refine ⟨?_, ?_, ?_, ?_, ?_, ?_⟩
  · intro hi hj hm hx hy
    rw [AVXVector32.bitwise_select, lorL, landL, landnotL,
      getElem!_zipWith_nat _ _ _ i (by simp [List.length_zipWith]; omega)
        (by simp [List.length_zipWith]; omega),
      getElem!_zipWith_nat _ _ _ i (by omega) (by omega),
      getElem!_zipWith_nat _ _ _ i (by omega) (by omega),
      Nat.testBit_or, Nat.testBit_and, Nat.testBit_and, Nat.testBit_xor,
      Nat.testBit_two_pow_sub_one]
    simp [hj]
  · intro hx hy hlt
    apply List.ext_getElem
    · simp [AVXVector32.bitwise_select, AVXVector32.splat, set1, lorL, landL, landnotL,
        List.length_zipWith, hx, hy]
      decide
    · intro k hk1 hk2
      simp only [AVXVector32.bitwise_select, AVXVector32.splat, set1, lorL, landL, landnotL,
        List.getElem_zipWith, List.getElem_replicate]
      rw [Nat.xor_self, Nat.zero_and, Nat.or_zero, Nat.and_comm,
        land_ones_of_lt 32 _ (hlt _ (List.getElem_mem _))]
  · intro hx hy hlt
    apply List.ext_getElem
    · simp [AVXVector32.bitwise_select, AVXVector32.splat, set1, lorL, landL, landnotL,
        List.length_zipWith, hx, hy]
      decide
    · intro k hk1 hk2
      simp only [AVXVector32.bitwise_select, AVXVector32.splat, set1, lorL, landL, landnotL,
        List.getElem_zipWith, List.getElem_replicate]
      rw [Nat.zero_and, Nat.xor_zero, Nat.zero_or, Nat.and_comm,
        land_ones_of_lt 32 _ (hlt _ (List.getElem_mem _))]
  · intro hi hj hm hx hy
    rw [AVXVector64.bitwise_select, lorL, landL, landnotL,
      getElem!_zipWith_nat _ _ _ i (by simp [List.length_zipWith]; omega)
        (by simp [List.length_zipWith]; omega),
      getElem!_zipWith_nat _ _ _ i (by omega) (by omega),
      getElem!_zipWith_nat _ _ _ i (by omega) (by omega),
      Nat.testBit_or, Nat.testBit_and, Nat.testBit_and, Nat.testBit_xor,
      Nat.testBit_two_pow_sub_one]
    simp [hj]
  · intro hx hy hlt
    apply List.ext_getElem
    · simp [AVXVector64.bitwise_select, AVXVector64.splat, set1, lorL, landL, landnotL,
        List.length_zipWith, hx, hy]
      decide
    · intro k hk1 hk2
      simp only [AVXVector64.bitwise_select, AVXVector64.splat, set1, lorL, landL, landnotL,
        List.getElem_zipWith, List.getElem_replicate]
      rw [Nat.xor_self, Nat.zero_and, Nat.or_zero, Nat.and_comm,
        land_ones_of_lt 64 _ (hlt _ (List.getElem_mem _))]
  · intro hx hy hlt
    apply List.ext_getElem
    · simp [AVXVector64.bitwise_select, AVXVector64.splat, set1, lorL, landL, landnotL,
        List.length_zipWith, hx, hy]
      decide
    · intro k hk1 hk2
      simp only [AVXVector64.bitwise_select, AVXVector64.splat, set1, lorL, landL, landnotL,
        List.getElem_zipWith, List.getElem_replicate]
      rw [Nat.zero_and, Nat.xor_zero, Nat.zero_or, Nat.and_comm,
        land_ones_of_lt 64 _ (hlt _ (List.getElem_mem _))]

/-- C8 witness: the all-ones mask selects the first operand and the
all-zeros mask selects the second, on concrete registers. -/
theorem bitwise_select_per_bit_witness :
    AVXVector32.bitwise_select (AVXVector32.splat (2 ^ 32 - 1))
      (List.replicate 8 0x40400000) (List.replicate 8 0xC0A00000) =
        List.replicate 8 0x40400000 ∧
    AVXVector64.bitwise_select (AVXVector64.splat 0)
      (List.replicate 4 0x4000000000000000) (List.replicate 4 0xC01E000000000000) =
        List.replicate 4 0xC01E000000000000 := by
  constructor
  · exact (bitwise_select_per_bit (List.replicate 8 0)
      (List.replicate 8 0x40400000) (List.replicate 8 0xC0A00000) 0 0).2.1
      (by decide) (by decide) (by decide)
  · exact (bitwise_select_per_bit (List.replicate 4 0)
      (List.replicate 4 0x4000000000000000) (List.replicate 4 0xC01E000000000000) 0 0).2.2.2.2.2
      (by decide) (by decide) (by decide)

theorem fclassify_eq_nan (fmt : FloatFmt) (b : Nat) :
    fclassify fmt b = FC.nan ↔ isNaNb fmt b = true := by
  unfold fclassify isNaNb
  split_ifs with h1 h2 h3 <;> simp_all

theorem fcEqB_nan_left (v : FC) : fcEqB FC.nan v = false := by cases v <;> rfl

theorem fcEqB_nan_right (v : FC) : fcEqB v FC.nan = false := by cases v <;> rfl

theorem fcLtB_nan_left (v : FC) : fcLtB FC.nan v = false := by cases v <;> rfl

theorem fcLtB_nan_right (v : FC) : fcLtB v FC.nan = false := by cases v <;> rfl

/-- C3: on both backends, for each of `eq`, `gt`, `lt`, a lane of the
result mask is all-zero whenever either operand lane is NaN, and is
otherwise the all-ones/all-zeros encoding of the standard IEEE-754
ordered comparison of the two lane values. -/
theorem ordered_comparisons_nan_false (x y : List Nat) (i : Nat) :
    (x.length = 8 → y.length = 8 → i < 8 →
      (AVXVector32.eq x y)[i]! =
        (if isNaNb f32fmt (x[i]!) ∨ isNaNb f32fmt (y[i]!) then 0
         else if fcEqB (fclassify f32fmt (x[i]!)) (fclassify f32fmt (y[i]!))
           then 2 ^ 32 - 1 else 0) ∧
      (AVXVector32.gt x y)[i]! =
        (if isNaNb f32fmt (x[i]!) ∨ isNaNb f32fmt (y[i]!) then 0
         else if fcGtB (fclassify f32fmt (x[i]!)) (fclassify f32fmt (y[i]!))
           then 2 ^ 32 - 1 else 0) ∧
      (AVXVector32.lt x y)[i]! =
        (if isNaNb f32fmt (x[i]!) ∨ isNaNb f32fmt (y[i]!) then 0
         else if fcLtB (fclassify f32fmt (x[i]!)) (fclassify f32fmt (y[i]!))
           then 2 ^ 32 - 1 else 0)) ∧
    (x.length = 4 → y.length = 4 → i < 4 →
      (AVXVector64.eq x y)[i]! =
        (if isNaNb f64fmt (x[i]!) ∨ isNaNb f64fmt (y[i]!) then 0
         else if fcEqB (fclassify f64fmt (x[i]!)) (fclassify f64fmt (y[i]!))
           then 2 ^ 64 - 1 else 0) ∧
      (AVXVector64.gt x y)[i]! =
        (if isNaNb f64fmt (x[i]!) ∨ isNaNb f64fmt (y[i]!) then 0
         else if fcGtB (fclassify f64fmt (x[i]!)) (fclassify f64fmt (y[i]!))
           then 2 ^ 64 - 1 else 0) ∧
      (AVXVector64.lt x y)[i]! =
        (if isNaNb f64fmt (x[i]!) ∨ isNaNb f64fmt (y[i]!) then 0
         else if fcLtB (fclassify f64fmt (x[i]!)) (fclassify f64fmt (y[i]!))
           then 2 ^ 64 - 1 else 0)) := by
  constructor
  · intro hx hy hi
    refine ⟨?_, ?_, ?_⟩
    · rw [AVXVector32.eq, getElem!_zipWith_nat _ _ _ i (by omega) (by omega), cmpEqOq]
      by_cases hN : isNaNb f32fmt (x[i]!) ∨ isNaNb f32fmt (y[i]!)
      · rcases hN with h | h
        · rw [(fclassify_eq_nan _ _).mpr h, fcEqB_nan_left]
          simp [h]
        · rw [(fclassify_eq_nan _ _).mpr h, fcEqB_nan_right]
          simp [h]
      · simp only [if_neg hN]
        rfl
    · rw [AVXVector32.gt, getElem!_zipWith_nat _ _ _ i (by omega) (by omega), cmpGtOq]
      by_cases hN : isNaNb f32fmt (x[i]!) ∨ isNaNb f32fmt (y[i]!)
      · rcases hN with h | h
        · rw [(fclassify_eq_nan _ _).mpr h]
          simp [h, fcGtB, fcLtB_nan_right]
        · rw [(fclassify_eq_nan _ _).mpr h]
          simp [h, fcGtB, fcLtB_nan_left]
      · simp only [if_neg hN]
        rfl
    · rw [AVXVector32.lt, getElem!_zipWith_nat _ _ _ i (by omega) (by omega), cmpLtOq]
      by_cases hN : isNaNb f32fmt (x[i]!) ∨ isNaNb f32fmt (y[i]!)
      · rcases hN with h | h
        · rw [(fclassify_eq_nan _ _).mpr h]
          simp [h, fcLtB_nan_left]
        · rw [(fclassify_eq_nan _ _).mpr h]
          simp [h, fcLtB_nan_right]
      · simp only [if_neg hN]
        rfl
  · intro hx hy hi
    refine ⟨?_, ?_, ?_⟩
    · rw [AVXVector64.eq, getElem!_zipWith_nat _ _ _ i (by omega) (by omega), cmpEqOq]
      by_cases hN : isNaNb f64fmt (x[i]!) ∨ isNaNb f64fmt (y[i]!)
      · rcases hN with h | h
        · rw [(fclassify_eq_nan _ _).mpr h, fcEqB_nan_left]
          simp [h]
        · rw [(fclassify_eq_nan _ _).mpr h, fcEqB_nan_right]
          simp [h]
      · simp only [if_neg hN]
        rfl
    · rw [AVXVector64.gt, getElem!_zipWith_nat _ _ _ i (by omega) (by omega), cmpGtOq]
      by_cases hN : isNaNb f64fmt (x[i]!) ∨ isNaNb f64fmt (y[i]!)
      · rcases hN with h | h
        · rw [(fclassify_eq_nan _ _).mpr h]
          simp [h, fcGtB, fcLtB_nan_right]
        · rw [(fclassify_eq_nan _ _).mpr h]
          simp [h, fcGtB, fcLtB_nan_left]
      · simp only [if_neg hN]
        rfl
    · rw [AVXVector64.lt, getElem!_zipWith_nat _ _ _ i (by omega) (by omega), cmpLtOq]
      by_cases hN : isNaNb f64fmt (x[i]!) ∨ isNaNb f64fmt (y[i]!)
      · rcases hN with h | h
        · rw [(fclassify_eq_nan _ _).mpr h]
          simp [h, fcLtB_nan_left]
        · rw [(fclassify_eq_nan _ _).mpr h]
          simp [h, fcLtB_nan_right]
      · simp only [if_neg hN]
        rfl

/-- C3 witness: a NaN operand lane yields an all-zero mask lane
(f32 `eq` with NaN on the left, f64 `lt` with NaN on the right), and a
non-NaN comparison yields the IEEE result (`-5.0f32 < 3.0f32` gives the
all-ones mask). -/
theorem ordered_comparisons_nan_false_witness :
    (AVXVector32.eq (List.replicate 8 0x7FC00000) (List.replicate 8 0x3F800000))[0]! = 0 ∧
    (AVXVector64.lt (List.replicate 4 0x3FF0000000000000)
      (List.replicate 4 0x7FF8000000000000))[0]! = 0 ∧
    (AVXVector32.lt (List.replicate 8 0xC0A00000) (List.replicate 8 0x40400000))[0]! =
      2 ^ 32 - 1 := by
  refine ⟨?_, ?_, ?_⟩
  · exact (((ordered_comparisons_nan_false
      (List.replicate 8 0x7FC00000) (List.replicate 8 0x3F800000) 0).1
      (by decide) (by decide) (by decide)).1).trans (by decide)
  · exact (((ordered_comparisons_nan_false
      (List.replicate 4 0x3FF0000000000000) (List.replicate 4 0x7FF8000000000000) 0).2
      (by decide) (by decide) (by decide)).2.2).trans (by decide)
  · exact (((ordered_comparisons_nan_false
      (List.replicate 8 0xC0A00000) (List.replicate 8 0x40400000) 0).1
      (by decide) (by decide) (by decide)).2.2).trans (by decide)

/-- C4: the two backends use different conversion strategies for `to_int`
(native `_mm256_cvtps_epi32` rounding vs. per-element Rust `as` cast),
and the modes genuinely differ: the finite value `1.5` (bit patterns
`0x3FC00000` as f32 and `0x3FF8000000000000` as f64, equal as reals)
converts to `2` on the 32-bit backend (round-to-nearest-even) but to `1`
on the 64-bit backend (truncation toward zero). -/
theorem to_int_rounding_diverges_across_widths :
    fclassify f32fmt 0x3FC00000 = FC.fin 12582912 (-23) ∧
    fclassify f64fmt 0x3FF8000000000000 = FC.fin 6755399441055744 (-52) ∧
    fcEqB (fclassify f32fmt 0x3FC00000) (fclassify f64fmt 0x3FF8000000000000) = true ∧
    AVXVector32.to_int (List.replicate 8 0x3FC00000) = List.replicate 8 2 ∧
    AVXVector64.to_int (List.replicate 4 0x3FF8000000000000) = List.replicate 4 1 ∧
    (2 : ℤ) ≠ 1 := by
  refine ⟨by decide, by decide, by decide, by decide, by decide, by decide⟩

/-- C9: on both AVX backends, which lack a fused instruction, `fma(a,b,c)`
is exactly the composition `add(mul(a,b),c)` (the spec-side contract
`fmaSpec32` / `fmaSpec64`), for every triple of lane registers. -/
theorem fma_is_unfused_mul_add (a b v : List Nat) :
    AVXVector32.fma a b v = fmaSpec32 a b v ∧
    AVXVector64.fma a b v = fmaSpec64 a b v :=
  ⟨rfl, rfl⟩

theorem tdivTrunc_eq_tdiv (M : ℤ) (d : Nat) : tdivTrunc M d = Int.tdiv M d := by
  unfold tdivTrunc
  rcases M with n | n
  · split_ifs with h
    · exact absurd h (Int.not_lt.mpr (Int.ofNat_zero_le n))
    · rfl
  · split_ifs with h
    · rfl
    · exact absurd (Int.negSucc_lt_zero n) h

theorem getElem!_map_int (f : Nat → ℤ) (v : List Nat) (i : Nat) (h : i < v.length) :
    (v.map f)[i]! = f (v[i]!) := by
  rw [getElem!_pos v i h, getElem!_pos (v.map f) i (by simpa using h)]
  exact List.getElem_map f

/-- C10: `AVXVector64::to_int` casts each lane with Rust `as` semantics:
finite values are truncated toward zero (`Int.tdiv` by the power of two),
NaN converts to 0, and out-of-range values (including the infinities)
saturate to `i64::MIN` / `i64::MAX`; the conversion is total. -/
theorem to_int64_is_rust_as_cast (v : List Nat) (b : Nat) (M E : ℤ) (i : Nat) :
    (i < v.length → (AVXVector64.to_int v)[i]! = castF64toI64 (v[i]!)) ∧
    (isNaNb f64fmt b = true → castF64toI64 b = 0) ∧
    (fclassify f64fmt b = FC.posInf → castF64toI64 b = 2 ^ 63 - 1) ∧
    (fclassify f64fmt b = FC.negInf → castF64toI64 b = -(2 ^ 63)) ∧
    (fclassify f64fmt b = FC.fin M E → 0 ≤ E →
      castF64toI64 b = max (-(2 ^ 63)) (min (2 ^ 63 - 1) (M * 2 ^ E.toNat))) ∧
    (fclassify f64fmt b = FC.fin M E → E < 0 →
      castF64toI64 b = max (-(2 ^ 63)) (min (2 ^ 63 - 1) (Int.tdiv M (2 ^ (-E).toNat)))) := by
  refine ⟨?_, ?_, ?_, ?_, ?_, ?_⟩
  · intro h
    exact getElem!_map_int castF64toI64 v i h
  · intro h
    simp only [castF64toI64, (fclassify_eq_nan f64fmt b).mpr h]
  · intro h
    simp only [castF64toI64, h]
  · intro h
    simp only [castF64toI64, h]
  · intro h hE
    simp only [castF64toI64, h, if_pos hE]
    split_ifs <;> omega
  · intro h hE
    simp only [castF64toI64, h, if_neg (not_le.mpr hE), tdivTrunc_eq_tdiv]
    push_cast
    split_ifs <;> omega

/-- C10 witness: `-2.5f64` (`0xC004000000000000`, value
`-5629499534213120 * 2 ^ (-51)`) truncates toward zero to `-2`, and the
NaN pattern `0x7FF8000000000000` casts to 0. -/
theorem to_int64_is_rust_as_cast_witness :
    castF64toI64 0xC004000000000000 = -2 ∧
    castF64toI64 0x7FF8000000000000 = 0 ∧
    (AVXVector64.to_int (List.replicate 4 0xC004000000000000))[0]! = -2 := by
  refine ⟨?_, ?_, ?_⟩
  · exact ((to_int64_is_rust_as_cast [] 0xC004000000000000 (-5629499534213120) (-51) 0).2.2.2.2.2
      (by decide) (by decide)).trans (by decide)
  · exact (to_int64_is_rust_as_cast [] 0x7FF8000000000000 0 0 0).2.1 (by decide)
  · exact ((to_int64_is_rust_as_cast (List.replicate 4 0xC004000000000000) 0 0 0 0).1
      (by decide)).trans (by decide)

/-- C2 counterexample: the wide backends do not fall back to a narrow
hardware backend.  `AVXVector32` declares `type Lower = ScalarVector32`
(and `AVXVector64` declares `ScalarVector64`), the width-1 scalar
backend, so no backend of lane width greater than 1 is the declared
fallback of `AVXVector32`. -/
theorem wide_fallback_is_scalar_not_narrow :
    Backend.lower Backend.avxVector32 = some Backend.scalarVector32 ∧
    Backend.lower Backend.avxVector64 = some Backend.scalarVector64 ∧
    Backend.laneWidth Backend.scalarVector32 = 1 ∧
    ¬ (∃ nb : Backend, Backend.lower Backend.avxVector32 = some nb ∧ 1 < nb.laneWidth) := by
  refine ⟨rfl, rfl, rfl, ?_⟩
  rintro ⟨nb, h1, h2⟩
  cases nb <;> simp_all [Backend.lower, Backend.laneWidth]

/-- C2 (amended): each wide 256-bit backend declares the width-1 scalar
backend directly as its fallback; every declared fallback strictly
decreases the lane width; backends of width 1 have no fallback; so every
fallback chain terminates at a scalar backend of width 1. -/
theorem fallback_chain_strictly_decreases :
    Backend.lower Backend.avxVector32 = some Backend.scalarVector32 ∧
    Backend.lower Backend.avxVector64 = some Backend.scalarVector64 ∧
    Backend.laneWidth Backend.scalarVector32 = 1 ∧
    Backend.laneWidth Backend.scalarVector64 = 1 ∧
    (∀ u v : Backend, Backend.lower u = some v → v.laneWidth < u.laneWidth) ∧
    (∀ u : Backend, u.laneWidth = 1 → Backend.lower u = none) := by
  refine ⟨rfl, rfl, rfl, rfl, ?_, ?_⟩
  · intro u v h
    cases u <;> cases v <;> simp_all [Backend.lower, Backend.laneWidth]
  · intro u h
    cases u <;> simp_all [Backend.lower, Backend.laneWidth]

/-- C2 witness: the strict-decrease property applied to the concrete
declared fallback edge `AVXVector32 → ScalarVector32`. -/
theorem fallback_chain_strictly_decreases_witness :
    Backend.laneWidth Backend.scalarVector32 < Backend.laneWidth Backend.avxVector32 :=
  fallback_chain_strictly_decreases.2.2.2.2.1 Backend.avxVector32 Backend.scalarVector32 rfl

theorem scalar_apply_elementwise_eq_map {α : Type} (g : α → α) :
    ∀ a : List α, scalar_apply_elementwise g a = a.map g := by
  intro a
  induction a with
  | nil =>
    rw [scalar_apply_elementwise, apply_elementwise_generic]
    simp
  | cons v vs ih =>
    rw [scalar_apply_elementwise] at ih
    rw [scalar_apply_elementwise, apply_elementwise_generic,
      dif_pos (by constructor <;> simp)]
    simp only [List.take_succ_cons, List.take_zero, List.drop_succ_cons, List.drop_zero,
      List.map_cons, List.map_nil, List.map]
    rw [ih]
    simp

theorem apply_elementwise_generic_eq_map {α : Type} (W : Nat) (g : α → α)
    (f : List α → List α) (hW : 0 < W)
    (hf : ∀ l : List α, l.length = W → f l = l.map g) :
    ∀ a : List α,
      apply_elementwise_generic W f (scalar_apply_elementwise g) a = a.map g := by
  have key : ∀ (n : Nat) (a : List α), a.length ≤ n →
      apply_elementwise_generic W f (scalar_apply_elementwise g) a = a.map g := by
    intro n
    induction n with
    | zero =>
      intro a ha
      rw [apply_elementwise_generic, dif_neg (by omega)]
      exact scalar_apply_elementwise_eq_map g a
    | succ m ih =>
      intro a ha
      by_cases hc : W ≤ a.length
      · rw [apply_elementwise_generic, dif_pos ⟨hW, hc⟩,
          hf (a.take W) (by simp [List.length_take]; omega),
          ih (a.drop W) (by simp [List.length_drop]; omega),
          ← List.map_append, List.take_append_drop]
      · rw [apply_elementwise_generic, dif_neg (by omega)]
        exact scalar_apply_elementwise_eq_map g a
  intro a
  exact key a.length a le_rfl

/-- C1: the recursive chunked driver is semantically transparent.  For
every buffer and every lane-level function `f` agreeing with the
elementwise application of the scalar function `g` on full lanes, each
backend's `apply_elementwise` (full-width chunks, remainder recursing to
the declared scalar fallback) leaves the buffer element-by-element equal
to mapping `g` over every original element — for every length `N ≥ 0`,
including lengths that are not a multiple of the lane width and lengths
below the lane width (which perform no full-width work at all). -/
theorem apply_elementwise_semantically_transparent
    (g : Nat → Nat) (f : List Nat → List Nat) (a : List Nat) :
    ((∀ l : List Nat, l.length = 8 → f l = l.map g) →
      AVXVector32.apply_elementwise f g a = a.map g) ∧
    ((∀ l : List Nat, l.length = 4 → f l = l.map g) →
      AVXVector64.apply_elementwise f g a = a.map g) := by
  constructor
  · intro hf
    exact apply_elementwise_generic_eq_map 8 g f (by omega) hf a
  · intro hf
    exact apply_elementwise_generic_eq_map 4 g f (by omega) hf a

/-- C1 witness: the spec's scenarios.  A 10-element buffer on the 8-lane
backend (one full chunk plus a 2-element remainder through the scalar
fallback) and a 3-element buffer on the 4-lane backend (remainder path
only), both bit-identical to the independent scalar application; the
second is `abs` on f64 bit patterns `[-1.5, 2.5, -0.0] → [1.5, 2.5, 0.0]`. -/
theorem apply_elementwise_semantically_transparent_witness :
    AVXVector32.apply_elementwise (fun l => l.map (· + 1000)) (· + 1000)
      [1, 2, 3, 4, 5, 6, 7, 8, 9, 10] =
      [1001, 1002, 1003, 1004, 1005, 1006, 1007, 1008, 1009, 1010] ∧
    AVXVector64.apply_elementwise (fun l => l.map (· &&& 0x7fffffffffffffff))
      (· &&& 0x7fffffffffffffff)
      [0xBFF8000000000000, 0x4004000000000000, 0x8000000000000000] =
      [0x3FF8000000000000, 0x4004000000000000, 0x0000000000000000] := by
  constructor
  · exact ((apply_elementwise_semantically_transparent (· + 1000)
      (fun l => l.map (· + 1000)) [1, 2, 3, 4, 5, 6, 7, 8, 9, 10]).1
      (fun l _ => rfl)).trans (by decide)
  · exact ((apply_elementwise_semantically_transparent (· &&& 0x7fffffffffffffff)
      (fun l => l.map (· &&& 0x7fffffffffffffff))
      [0xBFF8000000000000, 0x4004000000000000, 0x8000000000000000]).2
      (fun l _ => rfl)).trans (by decide)
